import Mathlib

/-!
# Verification of the auto-roast actuator controller

Shallow embedding of the actuator control and calibration state machine of
the auto-roast repository (packages `autoroast`, `firmware/device`,
`controller`, `firmware/commands`), together with proofs and refutations of
the specification claims.

Modelling conventions:
* Go `float32` values are modelled as `ℚ`.  Every computation relevant to a
  claim here is exact in `float32` (dyadic inputs, small magnitudes), so the
  rational model agrees with the float behaviour on those inputs.
* Go `int32` is modelled as `ℤ` and Go `uint` as `ℕ`; the step counts and
  level deltas involved are far below any overflow boundary.
* `time.Time` values are modelled as rational timestamps in seconds, with
  `0` playing the role of Go's zero `time.Time` (`IsZero`).  Each operation
  that reads the clock takes the current time `now` as an argument.
* Physical side effects (stepper motion, servo angle commands, sleeps) are
  collected in an explicit effect trace; diagnostic `println` output is not
  modelled.
* The servo's `SetAngle` can fail in Go.  `ClickButton` is therefore
  parameterised by the outcomes of its two `SetAngle` calls; the higher
  level operations, whose claims are about control logic, are modelled
  with a fault-free servo (`ClickButton cfg true true`).
-/

/-- Embeds `autoroast.ControlMode`: the mode shown on the FreshRoast display. -/
inductive ControlMode where
  | Unknown
  | Fan
  | Power
  | Timer
deriving DecidableEq, Repr

namespace ControlMode

/-- Embeds `ControlMode.Next` from `autoroast.go`: `Timer` wraps to `Fan`,
otherwise the successor in the declaration order (`cm + 1`). -/
def Next : ControlMode → ControlMode
  | Timer => Fan
  | Unknown => Fan
  | Fan => Power
  | Power => Timer

end ControlMode

/-- Embeds `device.CalibrationConfig` (firmware/device/configs.go): positioning and
motor-specific calibration values.  Delays are rational seconds. -/
structure CalibrationConfig where
  ServoBasePosition : ℤ
  ServoClickPosition : ℤ
  ServoPressDelay : ℚ
  ServoResetDelay : ℚ
  StepsPerIncrement : ℚ
  DelayAfterStepperMove : ℚ
  BackstepRatio : ℚ
deriving Repr

/-- The mutable fields of `device.Device` (= `controller.Controller`): the
believed appliance state.  `startTime = 0` and `lastClick = 0` model Go's
zero `time.Time`. -/
structure DState where
  currentControlMode : ControlMode
  fan : ℕ
  power : ℕ
  startTime : ℚ
  lastClick : ℚ
  verbose : Bool
  remainder : ℚ
deriving Repr

/-- The state produced by `device.New`: mode `Fan`, levels 0, zero times. -/
def initState : DState :=
  { currentControlMode := ControlMode.Fan
    fan := 0
    power := 0
    startTime := 0
    lastClick := 0
    verbose := false
    remainder := 0 }

/-- One physical side effect issued by the controller: a relative stepper
move (`Stepper.Move`), a servo angle command (`servo.SetAngle`), or a
`time.Sleep` with a duration in seconds. -/
inductive Effect where
  | stepperMove (steps : ℤ)
  | servoSetAngle (angle : ℤ)
  | sleep (seconds : ℚ)
deriving DecidableEq, Repr

/-- Net stepper displacement of an effect trace: the sum of all
`stepperMove` step counts. -/
def netSteps : List Effect → ℤ
  | [] => 0
  | Effect.stepperMove s :: rest => s + netSteps rest
  | _ :: rest => netSteps rest

/-- Go's `math.Round`: round to nearest, halves away from zero. -/
def goRound (x : ℚ) : ℤ :=
  if 0 ≤ x then ⌊x + 1/2⌋ else ⌈x - 1/2⌉

/-- Go's float-to-`int32` conversion on in-range values: truncation toward
zero. -/
def i32trunc (x : ℚ) : ℤ :=
  if 0 ≤ x then ⌊x⌋ else ⌈x⌉

/-- Embeds `Device.Move` / `Controller.Move` (identical in
firmware/device/configs.go and controller/controller.go): convert an
increment count to stepper steps, carrying the fractional remainder, then
apply the backstep compensation exactly as written.  Note that in the
source, `var backsteps int32` is zero-initialised and the branches execute
`move -= backsteps` / `move += backsteps` with that still-zero variable
before assigning `backsteps = ±numBacksteps`; the embedding reproduces
this. -/
def Move (cfg : CalibrationConfig) (n : ℤ) (d : DState) : DState × List Effect :=
  let rawMove : ℚ := (n : ℚ) * cfg.StepsPerIncrement + d.remainder
  let move0 : ℤ := goRound rawMove
  let d1 : DState := { d with remainder := rawMove - (move0 : ℚ) }
  let backsteps0 : ℤ := 0
  let mb : ℤ × ℤ :=
    if 0 < cfg.BackstepRatio then
      let numBacksteps := i32trunc (cfg.StepsPerIncrement / cfg.BackstepRatio)
      if move0 < 0 then
        (move0 - backsteps0, numBacksteps)
      else
        (move0 + backsteps0, -numBacksteps)
    else (move0, backsteps0)
  let move := mb.1
  let backsteps := mb.2
  let effs :=
    [Effect.stepperMove move] ++
      (if backsteps ≠ 0 then
        [Effect.sleep (1/5), Effect.stepperMove backsteps]
      else []) ++
      [Effect.sleep cfg.DelayAfterStepperMove]
  (d1, effs)

/-- Embeds `Device.ClickButton` / `Controller.ClickButton`: press and release the
button via the servo.  `ok1`, `ok2` are the outcomes of the two
`servo.SetAngle` calls; on a failure the Go code logs and returns early
(its return type is `void`, so no error reaches the caller), leaving
`lastClick` unset. -/
def ClickButton (cfg : CalibrationConfig) (ok1 ok2 : Bool) (now : ℚ)
    (d : DState) : DState × List Effect :=
  if !ok1 then
    (d, [Effect.servoSetAngle cfg.ServoClickPosition])
  else if !ok2 then
    (d, [Effect.servoSetAngle cfg.ServoClickPosition,
         Effect.sleep cfg.ServoPressDelay,
         Effect.servoSetAngle cfg.ServoBasePosition])
  else
    ({ d with lastClick := now },
     [Effect.servoSetAngle cfg.ServoClickPosition,
      Effect.sleep cfg.ServoPressDelay,
      Effect.servoSetAngle cfg.ServoBasePosition,
      Effect.sleep cfg.ServoResetDelay])

/-- The effect trace of one successful button click. -/
def clickTrace (cfg : CalibrationConfig) : List Effect :=
  [Effect.servoSetAngle cfg.ServoClickPosition,
   Effect.sleep cfg.ServoPressDelay,
   Effect.servoSetAngle cfg.ServoBasePosition,
   Effect.sleep cfg.ServoResetDelay]

/-- The `for d.currentControlMode != target` loop of `Device.GoToMode`:
click and advance the mode until it equals the target.  The loop runs at
most 3 iterations (the mode cycle has ≤ 4 reachable positions before
`target` recurs), so fuel 4 is always sufficient; `goToModeLoop_spec`
below proves that the fuel never runs out. -/
def goToModeLoop (cfg : CalibrationConfig) (now : ℚ) :
    ℕ → ControlMode → DState → DState × List Effect
  | 0, _, d => (d, [])
  | fuel + 1, target, d =>
    if d.currentControlMode = target then (d, [])
    else
      let p1 := ClickButton cfg true true now d
      let d1 := { p1.1 with currentControlMode := p1.1.currentControlMode.Next }
      let p2 := goToModeLoop cfg now fuel target d1
      (p2.1, p1.2 ++ p2.2)

/-- Number of clicks `GoToMode`'s loop needs to bring `cur` to `target`:
the distance in the `Next` cycle. -/
def modeDistance (cur target : ControlMode) : ℕ :=
  if cur = target then 0
  else if cur.Next = target then 1
  else if cur.Next.Next = target then 2
  else 3

/-- Embeds `Device.GoToMode` (firmware/device/configs.go): click the button until
the target mode is active.  Returns the updated state, the effect trace,
and the `clicked` flag that the Go function returns.  The re-arm check
(roast started and > 3 s since the last click) runs before the
`currentControlMode == target` early return, exactly as in the firmware
source. -/
def GoToMode (cfg : CalibrationConfig) (now : ℚ) (target : ControlMode)
    (d : DState) : DState × List Effect × Bool :=
  if target = ControlMode.Unknown then (d, [], false)
  else
    let r1 : DState × List Effect × Bool :=
      if d.startTime ≠ 0 ∧ 3 < now - d.lastClick then
        let p := ClickButton cfg true true now d
        (p.1, p.2, true)
      else (d, [], false)
    let d1 := r1.1
    if d1.currentControlMode = target then (d1, r1.2.1, r1.2.2)
    else
      let p := goToModeLoop cfg now 4 target d1
      (p.1, r1.2.1 ++ p.2, true)

/-- Embeds `Controller.GoToMode` (controller/controller.go): same purpose as
`Device.GoToMode`, but this revision returns `false` as soon as
`currentControlMode == target`, before the selection-mode re-arm check,
and its loop sets no `clicked` flag (it returns `true` whenever the loop
ran). -/
def ControllerGoToMode (cfg : CalibrationConfig) (now : ℚ)
    (target : ControlMode) (d : DState) : DState × List Effect × Bool :=
  if target = ControlMode.Unknown then (d, [], false)
  else if d.currentControlMode = target then (d, [], false)
  else
    let r1 : DState × List Effect :=
      if d.startTime ≠ 0 ∧ 3 < now - d.lastClick then
        ClickButton cfg true true now d
      else (d, [])
    let p := goToModeLoop cfg now 4 target r1.1
    (p.1, r1.2 ++ p.2, true)

/-- Embeds `Device.FixControlMode`: overwrite the believed mode. -/
def FixControlMode (cm : ControlMode) (d : DState) : DState :=
  { d with currentControlMode := cm }

/-- Embeds `Device.FixFan`: overwrite the believed fan level, no actuation. -/
def FixFan (f : ℕ) (d : DState) : DState :=
  { d with fan := f }

/-- Embeds `Device.FixPower`: overwrite the believed power level, no actuation. -/
def FixPower (p : ℕ) (d : DState) : DState :=
  { d with power := p }

/-- Embeds `Device.MoveFan`: go to Fan mode (sleeping 200 ms if that clicked) and
move by `i` increments, without touching the stored level. -/
def MoveFan (cfg : CalibrationConfig) (now : ℚ) (i : ℤ) (d : DState) :
    DState × List Effect :=
  let g := GoToMode cfg now ControlMode.Fan d
  let e1 := if g.2.2 then [Effect.sleep (1/5)] else []
  let m := Move cfg i g.1
  (m.1, g.2.1 ++ e1 ++ m.2)

/-- Embeds `Device.MovePower`: go to Power mode (sleeping 200 ms if that clicked)
and move by `i` increments, without touching the stored level. -/
def MovePower (cfg : CalibrationConfig) (now : ℚ) (i : ℤ) (d : DState) :
    DState × List Effect :=
  let g := GoToMode cfg now ControlMode.Power d
  let e1 := if g.2.2 then [Effect.sleep (1/5)] else []
  let m := Move cfg i g.1
  (m.1, g.2.1 ++ e1 ++ m.2)

/-- Embeds `Device.MoveTimer`: go to Timer mode (no settle sleep) and move by `i`
increments. -/
def MoveTimer (cfg : CalibrationConfig) (now : ℚ) (i : ℤ) (d : DState) :
    DState × List Effect :=
  let g := GoToMode cfg now ControlMode.Timer d
  let m := Move cfg i g.1
  (m.1, g.2.1 ++ m.2)

/-- Embeds `Device.SetFan` / `Controller.SetFan`: validate the level, compute the
delta from the stored level with the end-stop recalibration bias, move, and
store the new level unconditionally afterwards. -/
def SetFan (cfg : CalibrationConfig) (now : ℚ) (f : ℕ) (d : DState) :
    DState × List Effect :=
  if f < 1 ∨ 9 < f then (d, [])
  else
    let delta0 : ℤ := (f : ℤ) - (d.fan : ℤ)
    let delta1 : ℤ := if f = 9 then delta0 + 3 else delta0
    let delta : ℤ := if f = 1 then delta1 - 3 else delta1
    let m := MoveFan cfg now delta d
    ({ m.1 with fan := f }, m.2)

/-- Embeds `Device.SetPower` / `Controller.SetPower`: same as `SetFan` for the
power level. -/
def SetPower (cfg : CalibrationConfig) (now : ℚ) (p : ℕ) (d : DState) :
    DState × List Effect :=
  if p < 1 ∨ 9 < p then (d, [])
  else
    let delta0 : ℤ := (p : ℤ) - (d.power : ℤ)
    let delta1 : ℤ := if p = 9 then delta0 + 3 else delta0
    let delta : ℤ := if p = 1 then delta1 - 3 else delta1
    let m := MovePower cfg now delta d
    ({ m.1 with power := p }, m.2)

/-- Embeds `Device.IncreaseTime`: go to Timer mode and move 5 increments. -/
def IncreaseTime (cfg : CalibrationConfig) (now : ℚ) (d : DState) :
    DState × List Effect :=
  let g := GoToMode cfg now ControlMode.Timer d
  let m := Move cfg 5 g.1
  (m.1, g.2.1 ++ m.2)

/-- Embeds `Device.Start` / `Controller.Start`: fail (state untouched) unless both
levels are set; otherwise record `startTime = now`.  The second component
is the returned Go `error` (`none` = nil). -/
def Start (now : ℚ) (d : DState) : DState × Option String :=
  if d.fan = 0 ∨ d.power = 0 then
    (d, some "set initial fan/power before starting")
  else
    ({ d with startTime := now }, none)

/-- Embeds `Device.MicroStep`: raw stepper motion, bypassing calibration. -/
def MicroStep (n : ℤ) (d : DState) : DState × List Effect :=
  (d, [Effect.stepperMove n])

/-! ## The command dispatcher (firmware/commands/commands.go)

Bytes are modelled as natural numbers below 256.  A command's `Run`
function returns the updated state, the effect trace, and the Go `error`
(`none` = nil).  The diagnostic-only `TestCommand` (`Z`), the escape-code
`MicroStepCommand`, and `HelpCommand` (print only) are not modelled; in
`runBytes` their flags fall into the unknown-flag branch. -/

/-- Embeds `commands.b2i`: parse a digit byte.  Go computes `uint(b - '0')`
with wrap-around byte subtraction (modelled as `(b + 208) % 256`, since
`208 = 256 - 48`) and maps anything outside 1..9 to 0. -/
def b2i (b : ℕ) : ℕ :=
  let v := (b + 208) % 256
  if v < 1 ∨ 9 < v then 0 else v

/-- Renders a byte list as Go's `string(input)` for error messages. -/
def bytesStr (l : List ℕ) : String :=
  String.mk (l.map (fun b => Char.ofNat b))

/-- One entry of the `commands` table: flag byte, fixed argument size, and
the handler. -/
structure Cmd where
  flag : ℕ
  inputSize : ℕ
  run : CalibrationConfig → ℚ → List ℕ → DState → (DState × List Effect) × Option String

/-- Embeds `commands.SetFanCommand` (flag `F` = 70): `-`/`+` nudge the fan,
a digit 1–9 sets it, anything else is an invalid-input error. -/
def SetFanCommand : Cmd where
  flag := 70
  inputSize := 1
  run := fun cfg now input d =>
    let in0 := input.getD 0 0
    if in0 = 45 then (MoveFan cfg now (-1) d, none)
    else if in0 = 43 then (MoveFan cfg now 1 d, none)
    else
      let f := b2i in0
      if f ≤ 0 ∨ 9 < f then ((d, []), some ("invalid input: " ++ bytesStr input))
      else (SetFan cfg now f d, none)

/-- Embeds `commands.SetPowerCommand` (flag `P` = 80): same as `F` for the
power level. -/
def SetPowerCommand : Cmd where
  flag := 80
  inputSize := 1
  run := fun cfg now input d =>
    let in0 := input.getD 0 0
    if in0 = 45 then (MovePower cfg now (-1) d, none)
    else if in0 = 43 then (MovePower cfg now 1 d, none)
    else
      let p := b2i in0
      if p ≤ 0 ∨ 9 < p then ((d, []), some ("invalid input: " ++ bytesStr input))
      else (SetPower cfg now p d, none)

/-- Embeds `commands.SetModeCommand` (flag `M` = 77): map `F`/`P`/`T` to a
mode (anything else to `Unknown`) and navigate there; always returns nil. -/
def SetModeCommand : Cmd where
  flag := 77
  inputSize := 1
  run := fun cfg now input d =>
    let in0 := input.getD 0 0
    let mode :=
      if in0 = 70 then ControlMode.Fan
      else if in0 = 80 then ControlMode.Power
      else if in0 = 84 then ControlMode.Timer
      else ControlMode.Unknown
    let g := GoToMode cfg now mode d
    ((g.1, g.2.1), none)

/-- Body of `commands.ClickCommand.Run` (`c.ClickButton(); return nil`),
parameterised by the servo outcomes so that the caller-visible error can be
inspected: whatever the servo does, the handler returns nil. -/
def ClickCommandRun (ok1 ok2 : Bool) (cfg : CalibrationConfig) (now : ℚ)
    (d : DState) : (DState × List Effect) × Option String :=
  (ClickButton cfg ok1 ok2 now d, none)

/-- Embeds `commands.ClickCommand` (flag `C` = 67), with a fault-free
servo. -/
def ClickCommand : Cmd where
  flag := 67
  inputSize := 0
  run := fun cfg now _ d => ClickCommandRun true true cfg now d

/-- Embeds `commands.StartCommand` (flag `S` = 83): `return c.Start()`. -/
def StartCommand : Cmd where
  flag := 83
  inputSize := 0
  run := fun _ now _ d =>
    let r := Start now d
    ((r.1, []), r.2)

/-- Embeds `commands.DebugCommand` (flag `D` = 68): print only. -/
def DebugCommand : Cmd where
  flag := 68
  inputSize := 0
  run := fun _ _ _ d => ((d, []), none)

/-- Embeds `commands.VerboseCommand` (flag `V` = 86). -/
def VerboseCommand : Cmd where
  flag := 86
  inputSize := 0
  run := fun _ _ _ d => (({ d with verbose := true }, []), none)

/-- Embeds `commands.IncreaseTimeCommand` (flag `T` = 84). -/
def IncreaseTimeCommand : Cmd where
  flag := 84
  inputSize := 0
  run := fun cfg now _ d => (IncreaseTime cfg now d, none)

/-- Embeds `commands.FixFanCommand` (flag `f` = 102): parse the byte with
`b2i` (no validation of the result), capture the current target, overwrite
the stored fan level, then re-drive to the target; always returns nil. -/
def FixFanCommand : Cmd where
  flag := 102
  inputSize := 1
  run := fun cfg now input d =>
    let v := b2i (input.getD 0 0)
    let target := d.fan
    let d1 := FixFan v d
    (SetFan cfg now target d1, none)

/-- Embeds `commands.FixPowerCommand` (flag `p` = 112): same as `f` for the
power level. -/
def FixPowerCommand : Cmd where
  flag := 112
  inputSize := 1
  run := fun cfg now input d =>
    let v := b2i (input.getD 0 0)
    let target := d.power
    let d1 := FixPower v d
    (SetPower cfg now target d1, none)

/-- Embeds `commands.StepCommand` (flag `s` = 115): a sign byte (`+`/`-`,
otherwise invalid-input error) and an unvalidated `b2i` magnitude. -/
def StepCommand : Cmd where
  flag := 115
  inputSize := 2
  run := fun cfg _ input d =>
    let b0 := input.getD 0 0
    if b0 = 45 then
      (Move cfg ((b2i (input.getD 1 0) : ℤ) * (-1)) d, none)
    else if b0 ≠ 43 then ((d, []), some "invalid input")
    else
      (Move cfg ((b2i (input.getD 1 0) : ℤ) * 1) d, none)

/-- Embeds `commands.FullRevolutionCommand` (flag `R` = 82). -/
def FullRevolutionCommand : Cmd where
  flag := 82
  inputSize := 0
  run := fun _ _ _ d => (MicroStep 4096 d, none)

/-- Embeds `commands.InitCommand` (flag `I` = 73): set both stored levels
directly from two `b2i`-parsed bytes, with no validation and no movement;
always returns nil. -/
def InitCommand : Cmd where
  flag := 73
  inputSize := 2
  run := fun _ _ input d =>
    let fan := b2i (input.getD 0 0)
    let power := b2i (input.getD 1 0)
    ((FixPower power (FixFan fan d), []), none)

/-- The modelled part of the `commands` table. -/
def commandsList : List Cmd :=
  [SetFanCommand, SetPowerCommand, SetModeCommand, ClickCommand,
   StartCommand, DebugCommand, VerboseCommand, IncreaseTimeCommand,
   FixFanCommand, FixPowerCommand, StepCommand, FullRevolutionCommand,
   InitCommand]

/-- Looks up a flag byte in the command table (the Go code builds a map
keyed by flag; the flags are pairwise distinct, so `find?` agrees). -/
def findCmd (b : ℕ) : Option Cmd :=
  commandsList.find? (fun c => c.flag = b)

/-- Embeds `commands.Run` on a finite input byte list: skip unknown flags,
read the fixed-size argument block, run the handler, log-and-ignore its
error, and continue with the rest of the stream.  The Go loop blocks
forever waiting for more bytes; the model stops when the input list is
exhausted (also mid-argument). -/
def runBytes (cfg : CalibrationConfig) (now : ℚ) :
    List ℕ → DState → DState × List Effect
  | [], d => (d, [])
  | b :: rest, d =>
    match findCmd b with
    | none => runBytes cfg now rest d
    | some cmd =>
      if rest.length < cmd.inputSize then (d, [])
      else
        let args := rest.take cmd.inputSize
        let r := cmd.run cfg now args d
        let k := runBytes cfg now (rest.drop cmd.inputSize) r.1.1
        (k.1, r.1.2 ++ k.2)
termination_by l _ => l.length
decreasing_by
  · simp
  · simp [List.length_drop]
    omega

/-! ## Concrete calibration configurations used in witnesses -/

/-- A calibration close to the firmware's real one, with the backstep
compensation disabled. -/
def cfg0 : CalibrationConfig :=
  { ServoBasePosition := 15
    ServoClickPosition := 55
    ServoPressDelay := 1/5
    ServoResetDelay := 1/4
    StepsPerIncrement := 5/2
    DelayAfterStepperMove := 1/2
    BackstepRatio := 0 }

/-- The same calibration with the overshoot-and-return strategy enabled
(`BackstepRatio = 5/2`, so `numBacksteps = 1`). -/
def cfgB : CalibrationConfig :=
  { cfg0 with BackstepRatio := 5/2 }

/-- A started roast (`startTime = 1`) whose last click is long past, so at
`now = 10` the selection mode has timed out. -/
def staleState : DState := { initState with startTime := 1 }

/-- A state whose fan level was previously commanded to 3. -/
def fanThree : DState := { initState with fan := 3 }

/-- The level invariant of the specification: both stored levels lie in
[0, 9] (the lower bound is free over `ℕ`). -/
def LevelsOK (d : DState) : Prop := d.fan ≤ 9 ∧ d.power ≤ 9

/-! ## Helper lemmas -/

/-- Rounding to nearest (halves away from zero) is off by at most 1/2. -/
theorem abs_sub_goRound_le (x : ℚ) : |x - (goRound x : ℚ)| ≤ 1/2 := by
  unfold goRound
  split
  · have h1 : ((⌊x + 1/2⌋ : ℤ) : ℚ) ≤ x + 1/2 := Int.floor_le _
    have h2 : x + 1/2 < (⌊x + 1/2⌋ : ℤ) + 1 := Int.lt_floor_add_one _
    rw [abs_le]
    constructor <;> push_cast at h1 h2 ⊢ <;> linarith
  · have h1 : (x - 1/2 : ℚ) ≤ ((⌈x - 1/2⌉ : ℤ) : ℚ) := Int.le_ceil _
    have h2 : ((⌈x - 1/2⌉ : ℤ) : ℚ) < (x - 1/2) + 1 := Int.ceil_lt_add_one _
    rw [abs_le]
    constructor <;> push_cast at h1 h2 ⊢ <;> linarith

/-- A completed click only records the click time; a failed one changes
nothing. -/
theorem ClickButton_state (cfg : CalibrationConfig) (o1 o2 : Bool) (now : ℚ)
    (d : DState) :
    (ClickButton cfg o1 o2 now d).1 =
      if o1 && o2 then { d with lastClick := now } else d := by
  cases o1 <;> cases o2 <;> simp [ClickButton]

/-- The mode-advancing loop leaves every field except `currentControlMode`
and `lastClick` unchanged. -/
theorem goToModeLoop_frame (cfg : CalibrationConfig) (now : ℚ) :
    ∀ (fuel : ℕ) (t : ControlMode) (d : DState),
      (goToModeLoop cfg now fuel t d).1.fan = d.fan ∧
      (goToModeLoop cfg now fuel t d).1.power = d.power ∧
      (goToModeLoop cfg now fuel t d).1.remainder = d.remainder ∧
      (goToModeLoop cfg now fuel t d).1.startTime = d.startTime := by
  intro fuel
  induction fuel with
  | zero => intro t d; simp [goToModeLoop]
  | succ n ih =>
    intro t d
    by_cases h : d.currentControlMode = t <;>
      simp [goToModeLoop, h, ClickButton, ih]

/-- `GoToMode` leaves every field except `currentControlMode` and
`lastClick` unchanged. -/
theorem GoToMode_frame (cfg : CalibrationConfig) (now : ℚ) (t : ControlMode)
    (d : DState) :
    (GoToMode cfg now t d).1.fan = d.fan ∧
    (GoToMode cfg now t d).1.power = d.power ∧
    (GoToMode cfg now t d).1.remainder = d.remainder ∧
    (GoToMode cfg now t d).1.startTime = d.startTime := by
  unfold GoToMode
  by_cases ht : t = ControlMode.Unknown
  · simp [ht]
  · by_cases hra : d.startTime ≠ 0 ∧ 3 < now - d.lastClick <;>
      simp [ht, hra, ClickButton] <;>
      split <;>
      simp [goToModeLoop_frame]

/-- With fuel 4 the mode loop always reaches the (non-`Unknown`) target,
emitting one click trace per step of cycle distance. -/
theorem goToModeLoop_spec (cfg : CalibrationConfig) (now : ℚ)
    (t : ControlMode) (ht : t ≠ ControlMode.Unknown) (d : DState) :
    (goToModeLoop cfg now 4 t d).1.currentControlMode = t ∧
    (goToModeLoop cfg now 4 t d).2 =
      (List.replicate (modeDistance d.currentControlMode t) (clickTrace cfg)).flatten := by
  obtain ⟨cm, fan, power, st, lc, vb, rem⟩ := d
  cases cm <;> cases t <;>
    simp [goToModeLoop, ClickButton, ControlMode.Next, modeDistance,
      clickTrace] at ht ⊢

/-- `Move` only rewrites `remainder`. -/
theorem Move_state (cfg : CalibrationConfig) (n : ℤ) (d : DState) :
    (Move cfg n d).1 =
      { d with remainder :=
          ((n : ℚ) * cfg.StepsPerIncrement + d.remainder) -
            (goRound ((n : ℚ) * cfg.StepsPerIncrement + d.remainder) : ℚ) } := by
  simp [Move]


/-! ## Claim C2 — mode navigation with the selection-mode re-arm click -/

/-- C2 (amended): in the firmware implementation `Device.GoToMode`, for a
target in {Fan, Power, Timer}, when a roast has started and more than 3
seconds have elapsed since the last click, exactly one re-arm click is
issued before the mode-advancing clicks (the trace is `1 + cycle-distance`
identical click blocks, the re-arm block first), the final mode is the
target, and the call returns true — also when `currentMode == target`,
where the single re-arm click alone makes the result true.  (The
controller-package variant `Controller.GoToMode` violates this; see the
counterexample.) -/
theorem C2_device_goToMode_rearm (cfg : CalibrationConfig) (now : ℚ)
    (t : ControlMode) (d : DState)
    (ht : t ≠ ControlMode.Unknown)
    (hs : d.startTime ≠ 0) (hc : 3 < now - d.lastClick) :
    (GoToMode cfg now t d).2.2 = true ∧
    (GoToMode cfg now t d).2.1 =
      (List.replicate (1 + modeDistance d.currentControlMode t)
        (clickTrace cfg)).flatten ∧
    (GoToMode cfg now t d).1.currentControlMode = t := by
  have hra : d.startTime ≠ 0 ∧ 3 < now - d.lastClick := ⟨hs, hc⟩
  by_cases hm : d.currentControlMode = t
  · simp [GoToMode, if_neg ht, if_pos hra, ClickButton, hm, modeDistance,
      clickTrace]
  · have hl := goToModeLoop_spec cfg now t ht { d with lastClick := now }
    simp only [DState.mk.injEq] at hl
    simp [GoToMode, if_neg ht, if_pos hra, ClickButton, hm, modeDistance,
      clickTrace, List.replicate] at hl ⊢
    simp [hl]
    rw [Nat.add_comm, List.replicate_succ, List.flatten_cons]
    simp

/-- C2 counterexample: `Controller.GoToMode` (controller/controller.go),
called with `currentMode == target == Fan` on a started roast with a stale
last click, issues no click at all and returns false — refuting the claim,
which requires one re-arm click and a true return in exactly this
situation. -/
theorem C2_counterexample :
    (ControllerGoToMode cfg0 10 ControlMode.Fan staleState).2.2 = false ∧
    (ControllerGoToMode cfg0 10 ControlMode.Fan staleState).2.1 = [] := by
  simp [ControllerGoToMode, staleState, initState]

/-- Witness for the amended C2 theorem at a concrete input: stale started
roast, already in Fan mode — one re-arm click, return true. -/
theorem C2_device_goToMode_rearm_witness :
    (GoToMode cfg0 10 ControlMode.Fan staleState).2.2 = true ∧
    (GoToMode cfg0 10 ControlMode.Fan staleState).2.1 =
      (List.replicate (1 + modeDistance staleState.currentControlMode
        ControlMode.Fan) (clickTrace cfg0)).flatten ∧
    (GoToMode cfg0 10 ControlMode.Fan staleState).1.currentControlMode =
      ControlMode.Fan :=
  C2_device_goToMode_rearm cfg0 10 ControlMode.Fan staleState
    (by simp)
    (by simp [staleState, initState])
    (by norm_num [staleState, initState])

/-! ## Claim C1 — overshoot-and-return net displacement -/

/-- C1 (evaluation of the code at the failing input): with
`StepsPerIncrement = 5/2` and `BackstepRatio = 5/2` (so `extraSteps = 1`),
`Move 2` from the initial state rounds to `stepsToApply = 5`, but the
stepper trace is `+5`, pause, `-1`: the first motion is `stepsToApply`
alone (the code adds the still-zero `backsteps` variable instead of
`numBacksteps`), so the net displacement is 4, not `stepsToApply = 5` as
the claim and the code's own comment promise. -/
theorem C1_code_bug_eval :
    goRound ((2 : ℚ) * cfgB.StepsPerIncrement + initState.remainder) = 5 ∧
    (Move cfgB 2 initState).2 =
      [Effect.stepperMove 5, Effect.sleep (1/5), Effect.stepperMove (-1),
       Effect.sleep cfgB.DelayAfterStepperMove] ∧
    netSteps (Move cfgB 2 initState).2 = 4 := by
  norm_num [Move, goRound, i32trunc, cfgB, cfg0, initState, netSteps,
    Rat.floor_def]

/-! ## Claim C3 — remainder carry: 2.5 steps per increment -/

/-- C3: with `stepsPerIncrement = 2.5`, zero remainder and no backstep
compensation, two `Move 1` calls issue 3 then 2 stepper steps (remainders
-1/2 then 0), totalling the 5 steps that a single `Move 2` issues. -/
theorem C3_remainder_carry (cfg : CalibrationConfig) (d : DState)
    (hspi : cfg.StepsPerIncrement = 5/2) (hrem : d.remainder = 0)
    (hb : ¬ 0 < cfg.BackstepRatio) :
    (Move cfg 1 d).2 =
      [Effect.stepperMove 3, Effect.sleep cfg.DelayAfterStepperMove] ∧
    (Move cfg 1 d).1.remainder = -(1/2) ∧
    (Move cfg 1 (Move cfg 1 d).1).2 =
      [Effect.stepperMove 2, Effect.sleep cfg.DelayAfterStepperMove] ∧
    (Move cfg 1 (Move cfg 1 d).1).1.remainder = 0 ∧
    (Move cfg 2 d).2 =
      [Effect.stepperMove 5, Effect.sleep cfg.DelayAfterStepperMove] ∧
    netSteps (Move cfg 1 d).2 + netSteps (Move cfg 1 (Move cfg 1 d).1).2 =
      netSteps (Move cfg 2 d).2 := by
  norm_num [Move, goRound, hspi, hrem, hb, netSteps, Rat.floor_def]

/-- Witness for C3 at the concrete no-backstep calibration. -/
theorem C3_remainder_carry_witness :
    (Move cfg0 1 initState).2 =
      [Effect.stepperMove 3, Effect.sleep cfg0.DelayAfterStepperMove] ∧
    (Move cfg0 1 initState).1.remainder = -(1/2) ∧
    (Move cfg0 1 (Move cfg0 1 initState).1).2 =
      [Effect.stepperMove 2, Effect.sleep cfg0.DelayAfterStepperMove] ∧
    (Move cfg0 1 (Move cfg0 1 initState).1).1.remainder = 0 ∧
    (Move cfg0 2 initState).2 =
      [Effect.stepperMove 5, Effect.sleep cfg0.DelayAfterStepperMove] ∧
    netSteps (Move cfg0 1 initState).2 +
        netSteps (Move cfg0 1 (Move cfg0 1 initState).1).2 =
      netSteps (Move cfg0 2 initState).2 :=
  C3_remainder_carry cfg0 initState (by norm_num [cfg0])
    (by simp [initState]) (by norm_num [cfg0])

/-! ## Claim C10 — the remainder never reaches one physical step -/

/-- Move's remainder is the rounding error, bounded by 1/2. -/
theorem Move_remainder_le (cfg : CalibrationConfig) (n : ℤ) (d : DState) :
    |(Move cfg n d).1.remainder| ≤ 1/2 := by
  rw [Move_state]
  exact abs_sub_goRound_le _

/-- C10: after every `Move` the remainder satisfies `|remainder| ≤ 1/2`
(hence is strictly below one physical step), unconditionally; every other
controller operation either ends in a `Move` or leaves the remainder
unchanged, so the bound holds after every operation. -/
theorem C10_remainder_invariant :
    (∀ cfg n d, |(Move cfg n d).1.remainder| ≤ 1/2 ∧
      |(Move cfg n d).1.remainder| < 1) ∧
    (∀ cfg now i d, |(MoveFan cfg now i d).1.remainder| ≤ 1/2) ∧
    (∀ cfg now i d, |(MovePower cfg now i d).1.remainder| ≤ 1/2) ∧
    (∀ cfg now i d, |(MoveTimer cfg now i d).1.remainder| ≤ 1/2) ∧
    (∀ cfg now d, |(IncreaseTime cfg now d).1.remainder| ≤ 1/2) ∧
    (∀ cfg now f d, |d.remainder| ≤ 1/2 →
      |(SetFan cfg now f d).1.remainder| ≤ 1/2) ∧
    (∀ cfg now p d, |d.remainder| ≤ 1/2 →
      |(SetPower cfg now p d).1.remainder| ≤ 1/2) ∧
    (∀ cfg now t d, |d.remainder| ≤ 1/2 →
      |(GoToMode cfg now t d).1.remainder| ≤ 1/2) ∧
    (∀ cfg o1 o2 now d, |d.remainder| ≤ 1/2 →
      |(ClickButton cfg o1 o2 now d).1.remainder| ≤ 1/2) ∧
    (∀ now d, |d.remainder| ≤ 1/2 → |(Start now d).1.remainder| ≤ 1/2) ∧
    (∀ v d, |d.remainder| ≤ 1/2 → |(FixFan v d).remainder| ≤ 1/2) ∧
    (∀ v d, |d.remainder| ≤ 1/2 → |(FixPower v d).remainder| ≤ 1/2) ∧
    (∀ cm d, |d.remainder| ≤ 1/2 → |(FixControlMode cm d).remainder| ≤ 1/2) := by
  refine ⟨?_, ?_, ?_, ?_, ?_, ?_, ?_, ?_, ?_, ?_, ?_, ?_, ?_⟩
  · intro cfg n d
    refine ⟨Move_remainder_le cfg n d, lt_of_le_of_lt (Move_remainder_le cfg n d) ?_⟩
    norm_num
  · intro cfg now i d; simp only [MoveFan]; exact Move_remainder_le ..
  · intro cfg now i d; simp only [MovePower]; exact Move_remainder_le ..
  · intro cfg now i d; simp only [MoveTimer]; exact Move_remainder_le ..
  · intro cfg now d; simp only [IncreaseTime]; exact Move_remainder_le ..
  · intro cfg now f d h
    by_cases hf : f < 1 ∨ 9 < f
    · simp only [SetFan]
      rw [if_pos hf]
      simpa using h
    · simp only [SetFan]
      rw [if_neg hf]
      exact Move_remainder_le ..
  · intro cfg now p d h
    by_cases hp : p < 1 ∨ 9 < p
    · simp only [SetPower]
      rw [if_pos hp]
      simpa using h
    · simp only [SetPower]
      rw [if_neg hp]
      exact Move_remainder_le ..
  · intro cfg now t d h
    have := (GoToMode_frame cfg now t d).2.2.1
    rw [this]; exact h
  · intro cfg o1 o2 now d h
    rw [ClickButton_state]
    split <;> simpa using h
  · intro now d h
    unfold Start
    split <;> simpa using h
  · intro v d h; simpa [FixFan] using h
  · intro v d h; simpa [FixPower] using h
  · intro cm d h; simpa [FixControlMode] using h

/-- Witness for C10: the bound after a concrete `Move` and after a
concrete `SetFan` whose precondition is discharged at the initial state. -/
theorem C10_remainder_invariant_witness :
    |(Move cfg0 1 initState).1.remainder| ≤ 1/2 ∧
    |(SetFan cfg0 0 5 initState).1.remainder| ≤ 1/2 :=
  ⟨(C10_remainder_invariant.1 cfg0 1 initState).1,
   C10_remainder_invariant.2.2.2.2.2.1 cfg0 0 5 initState
     (by simp [initState])⟩

/-! ## Claim C7 — Start precondition -/

/-- C7: `Start` returns the invalid-state error exactly when `fanLevel` or
`powerLevel` is still 0, and then the state — in particular `startTime` —
is unchanged; with both levels nonzero it succeeds and records
`startTime = now`. -/
theorem C7_start (now : ℚ) (d : DState) :
    (d.fan = 0 ∨ d.power = 0 →
      Start now d = (d, some "set initial fan/power before starting")) ∧
    (d.fan ≠ 0 → d.power ≠ 0 →
      Start now d = ({ d with startTime := now }, none)) := by
  constructor
  · intro h
    unfold Start
    rw [if_pos h]
  · intro h1 h2
    unfold Start
    rw [if_neg (by tauto)]

/-- Witness for C7 at the spec's own test vector `fanLevel=0, powerLevel=5`:
precondition error, `startTime` stays unset. -/
theorem C7_start_witness :
    Start 5 { initState with power := 5 } =
      ({ initState with power := 5 },
        some "set initial fan/power before starting") :=
  (C7_start 5 { initState with power := 5 }).1 (Or.inl (by simp [initState]))

/-! ## Claim C8 — level setter delta with end-stop bias -/

/-- C8: for a valid level, `SetFan` passes
`(level - fan) + (3 if level = 9) - (3 if level = 1)` increments to the fan
movement and then stores `fan = level` unconditionally; symmetrically for
`SetPower`. -/
theorem C8_set_levels (cfg : CalibrationConfig) (now : ℚ) (v : ℕ)
    (d : DState) (h1 : 1 ≤ v) (h9 : v ≤ 9) :
    SetFan cfg now v d =
      ({ (MoveFan cfg now
            (((v : ℤ) - d.fan) + (if v = 9 then 3 else 0) -
              (if v = 1 then 3 else 0)) d).1 with fan := v },
        (MoveFan cfg now
            (((v : ℤ) - d.fan) + (if v = 9 then 3 else 0) -
              (if v = 1 then 3 else 0)) d).2) ∧
    SetPower cfg now v d =
      ({ (MovePower cfg now
            (((v : ℤ) - d.power) + (if v = 9 then 3 else 0) -
              (if v = 1 then 3 else 0)) d).1 with power := v },
        (MovePower cfg now
            (((v : ℤ) - d.power) + (if v = 9 then 3 else 0) -
              (if v = 1 then 3 else 0)) d).2) := by
  have hd : ∀ base : ℤ,
      (if v = 1 then (if v = 9 then base + 3 else base) - 3
       else (if v = 9 then base + 3 else base)) =
        base + (if v = 9 then 3 else 0) - (if v = 1 then 3 else 0) := by
    intro base
    by_cases hv9 : v = 9 <;> by_cases hv1 : v = 1 <;>
      simp [hv9, hv1]
  constructor
  · simp only [SetFan]
    rw [if_neg (by omega), hd]
  · simp only [SetPower]
    rw [if_neg (by omega), hd]

/-- Witness for C8: `SetFan 9` from stored level 6 moves by
`(9-6)+3 = 6` increments before storing 9. -/
theorem C8_set_levels_witness :
    SetFan cfg0 0 9 { initState with fan := 6 } =
      ({ (MoveFan cfg0 0 6 { initState with fan := 6 }).1 with fan := 9 },
        (MoveFan cfg0 0 6 { initState with fan := 6 }).2) := by
  have h := (C8_set_levels cfg0 0 9 { initState with fan := 6 }
    (by norm_num) (by norm_num)).1
  norm_num [initState] at h
  exact h

/-! ## Claim C9 — out-of-range level is a silent no-op -/

/-- C9: for a level outside [1,9], `SetFan` and `SetPower` change nothing
and issue no effect (and, having no error return in Go, report no
error). -/
theorem C9_out_of_range_noop (cfg : CalibrationConfig) (now : ℚ) (v : ℕ)
    (d : DState) (h : v < 1 ∨ 9 < v) :
    SetFan cfg now v d = (d, []) ∧ SetPower cfg now v d = (d, []) := by
  refine ⟨?_, ?_⟩
  · simp only [SetFan]
    rw [if_pos h]
  · simp only [SetPower]
    rw [if_pos h]

/-- Witness for C9 at level 10. -/
theorem C9_out_of_range_noop_witness :
    SetFan cfg0 0 10 initState = (initState, []) ∧
    SetPower cfg0 0 10 initState = (initState, []) :=
  C9_out_of_range_noop cfg0 0 10 initState (Or.inr (by norm_num))

/-! ## Claim C4 — the levels stay in [0,9] -/

/-- `Move` does not touch the stored levels. -/
theorem Move_levelsOK (cfg : CalibrationConfig) (n : ℤ) (d : DState)
    (h : LevelsOK d) : LevelsOK (Move cfg n d).1 := by
  rw [Move_state]; exact h

/-- `ClickButton` does not touch the stored levels. -/
theorem ClickButton_levelsOK (cfg : CalibrationConfig) (o1 o2 : Bool)
    (now : ℚ) (d : DState) (h : LevelsOK d) :
    LevelsOK (ClickButton cfg o1 o2 now d).1 := by
  rw [ClickButton_state]
  split <;> exact h

/-- `GoToMode` does not touch the stored levels. -/
theorem GoToMode_levelsOK (cfg : CalibrationConfig) (now : ℚ)
    (t : ControlMode) (d : DState) (h : LevelsOK d) :
    LevelsOK (GoToMode cfg now t d).1 := by
  have hf := GoToMode_frame cfg now t d
  exact ⟨hf.1.trans_le h.1, hf.2.1.trans_le h.2⟩

/-- `MoveFan` does not touch the stored levels. -/
theorem MoveFan_levelsOK (cfg : CalibrationConfig) (now : ℚ) (i : ℤ)
    (d : DState) (h : LevelsOK d) : LevelsOK (MoveFan cfg now i d).1 :=
  Move_levelsOK cfg i _ (GoToMode_levelsOK cfg now ControlMode.Fan d h)

/-- `MovePower` does not touch the stored levels. -/
theorem MovePower_levelsOK (cfg : CalibrationConfig) (now : ℚ) (i : ℤ)
    (d : DState) (h : LevelsOK d) : LevelsOK (MovePower cfg now i d).1 :=
  Move_levelsOK cfg i _ (GoToMode_levelsOK cfg now ControlMode.Power d h)

/-- `MoveTimer` does not touch the stored levels. -/
theorem MoveTimer_levelsOK (cfg : CalibrationConfig) (now : ℚ) (i : ℤ)
    (d : DState) (h : LevelsOK d) : LevelsOK (MoveTimer cfg now i d).1 :=
  Move_levelsOK cfg i _ (GoToMode_levelsOK cfg now ControlMode.Timer d h)

/-- `IncreaseTime` does not touch the stored levels. -/
theorem IncreaseTime_levelsOK (cfg : CalibrationConfig) (now : ℚ)
    (d : DState) (h : LevelsOK d) : LevelsOK (IncreaseTime cfg now d).1 :=
  Move_levelsOK cfg 5 _ (GoToMode_levelsOK cfg now ControlMode.Timer d h)

/-- `SetFan` keeps the levels in range: it stores only validated levels. -/
theorem SetFan_levelsOK (cfg : CalibrationConfig) (now : ℚ) (f : ℕ)
    (d : DState) (h : LevelsOK d) : LevelsOK (SetFan cfg now f d).1 := by
  by_cases hf : f < 1 ∨ 9 < f
  · simp only [SetFan]
    rw [if_pos hf]
    exact h
  · simp only [SetFan]
    rw [if_neg hf]
    refine ⟨?_, (MoveFan_levelsOK cfg now
      (if f = 1 then (if f = 9 then (f : ℤ) - d.fan + 3 else (f : ℤ) - d.fan) - 3
       else (if f = 9 then (f : ℤ) - d.fan + 3 else (f : ℤ) - d.fan)) d h).2⟩
    show f ≤ 9
    omega

/-- `SetPower` keeps the levels in range. -/
theorem SetPower_levelsOK (cfg : CalibrationConfig) (now : ℚ) (p : ℕ)
    (d : DState) (h : LevelsOK d) : LevelsOK (SetPower cfg now p d).1 := by
  by_cases hp : p < 1 ∨ 9 < p
  · simp only [SetPower]
    rw [if_pos hp]
    exact h
  · simp only [SetPower]
    rw [if_neg hp]
    refine ⟨(MovePower_levelsOK cfg now
      (if p = 1 then (if p = 9 then (p : ℤ) - d.power + 3 else (p : ℤ) - d.power) - 3
       else (if p = 9 then (p : ℤ) - d.power + 3 else (p : ℤ) - d.power)) d h).1, ?_⟩
    show p ≤ 9
    omega

/-- `Start` does not touch the stored levels. -/
theorem Start_levelsOK (now : ℚ) (d : DState) (h : LevelsOK d) :
    LevelsOK (Start now d).1 := by
  unfold Start
  split <;> exact h

/-- `FixFan` keeps the invariant exactly when its argument is ≤ 9. -/
theorem FixFan_levelsOK (v : ℕ) (d : DState) (hv : v ≤ 9) (h : LevelsOK d) :
    LevelsOK (FixFan v d) :=
  ⟨hv, h.2⟩

/-- `FixPower` keeps the invariant exactly when its argument is ≤ 9. -/
theorem FixPower_levelsOK (v : ℕ) (d : DState) (hv : v ≤ 9) (h : LevelsOK d) :
    LevelsOK (FixPower v d) :=
  ⟨h.1, hv⟩

/-- `b2i` only produces 0 or a digit value 1–9. -/
theorem b2i_le (b : ℕ) : b2i b ≤ 9 := by
  simp only [b2i]
  split
  · omega
  · omega

/-- Every modelled command handler preserves the level invariant (the
`b2i`-parsed fix/init arguments are always ≤ 9). -/
theorem cmd_run_levelsOK (c : Cmd) (hc : c ∈ commandsList)
    (cfg : CalibrationConfig) (now : ℚ) (args : List ℕ) (d : DState)
    (h : LevelsOK d) : LevelsOK (c.run cfg now args d).1.1 := by
  simp only [commandsList, List.mem_cons, List.not_mem_nil, or_false] at hc
  rcases hc with rfl | rfl | rfl | rfl | rfl | rfl | rfl | rfl | rfl | rfl |
    rfl | rfl | rfl
  · simp only [SetFanCommand]
    split
    · exact MoveFan_levelsOK _ _ _ _ h
    · split
      · exact MoveFan_levelsOK _ _ _ _ h
      · split
        · exact h
        · exact SetFan_levelsOK _ _ _ _ h
  · simp only [SetPowerCommand]
    split
    · exact MovePower_levelsOK _ _ _ _ h
    · split
      · exact MovePower_levelsOK _ _ _ _ h
      · split
        · exact h
        · exact SetPower_levelsOK _ _ _ _ h
  · exact GoToMode_levelsOK _ _ _ _ h
  · exact ClickButton_levelsOK _ _ _ _ _ h
  · exact Start_levelsOK _ _ h
  · exact h
  · exact h
  · exact IncreaseTime_levelsOK _ _ _ h
  · exact SetFan_levelsOK _ _ _ _ (FixFan_levelsOK _ _ (b2i_le _) h)
  · exact SetPower_levelsOK _ _ _ _ (FixPower_levelsOK _ _ (b2i_le _) h)
  · simp only [StepCommand]
    split
    · exact Move_levelsOK _ _ _ h
    · split
      · exact h
      · exact Move_levelsOK _ _ _ h
  · exact h
  · exact FixPower_levelsOK _ _ (b2i_le _) (FixFan_levelsOK _ _ (b2i_le _) h)

/-- A command found in the table is one of the modelled commands. -/
theorem findCmd_mem (b : ℕ) (c : Cmd) (hc : findCmd b = some c) :
    c ∈ commandsList :=
  List.mem_of_find?_eq_some hc

/-- The dispatcher loop preserves the level invariant over any byte
stream. -/
theorem runBytes_levelsOK (cfg : CalibrationConfig) (now : ℚ)
    (l : List ℕ) (d : DState) (h : LevelsOK d) :
    LevelsOK (runBytes cfg now l d).1 := by
  suffices H : ∀ (n : ℕ) (l : List ℕ), l.length ≤ n → ∀ d, LevelsOK d →
      LevelsOK (runBytes cfg now l d).1 from H l.length l le_rfl d h
  intro n
  induction n with
  | zero =>
    intro l hl d hd
    have hnil : l = [] := List.eq_nil_of_length_eq_zero (Nat.le_zero.mp hl)
    subst hnil
    simpa [runBytes] using hd
  | succ n ih =>
    intro l hl d hd
    match l with
    | [] => simpa [runBytes] using hd
    | b :: rest =>
      rw [runBytes]
      have hr : rest.length ≤ n := by
        simp only [List.length_cons] at hl
        omega
      cases hc : findCmd b with
      | none => exact ih rest hr d hd
      | some cmd =>
        simp only
        split
        · exact hd
        · have hdrop : (rest.drop cmd.inputSize).length ≤ n := by
            rw [List.length_drop]
            omega
          exact ih _ hdrop _
            (cmd_run_levelsOK cmd (findCmd_mem b cmd hc) cfg now _ d hd)

/-- C4 counterexample: `FixFan` performs no validation, so the directly
callable operation `FixFan 10` — an argument the function accepts — drives
`fanLevel` to 10, outside [0,9], already as the first operation after the
initial state. -/
theorem C4_counterexample :
    (FixFan 10 initState).fan = 10 ∧ ¬ (FixFan 10 initState).fan ≤ 9 := by
  simp [FixFan, initState]

/-- C4 (amended): `fanLevel` and `powerLevel` stay in [0,9] under every
operation provided the drift-correction arguments are themselves ≤ 9 —
which the command dispatcher guarantees, since `b2i` only produces 0–9;
in particular the invariant holds after any dispatched byte stream from
the initial state.  (`FixFan`/`FixPower` with an argument > 9, reachable
only by direct call, break it — see the counterexample.) -/
theorem C4_levels_invariant :
    (∀ cfg now l, LevelsOK (runBytes cfg now l initState).1) ∧
    (∀ cfg now l d, LevelsOK d → LevelsOK (runBytes cfg now l d).1) ∧
    (∀ cfg now f d, LevelsOK d → LevelsOK (SetFan cfg now f d).1) ∧
    (∀ cfg now p d, LevelsOK d → LevelsOK (SetPower cfg now p d).1) ∧
    (∀ cfg now i d, LevelsOK d → LevelsOK (MoveFan cfg now i d).1) ∧
    (∀ cfg now i d, LevelsOK d → LevelsOK (MovePower cfg now i d).1) ∧
    (∀ cfg now i d, LevelsOK d → LevelsOK (MoveTimer cfg now i d).1) ∧
    (∀ cfg now d, LevelsOK d → LevelsOK (IncreaseTime cfg now d).1) ∧
    (∀ cfg now t d, LevelsOK d → LevelsOK (GoToMode cfg now t d).1) ∧
    (∀ cfg o1 o2 now d, LevelsOK d →
      LevelsOK (ClickButton cfg o1 o2 now d).1) ∧
    (∀ cfg n d, LevelsOK d → LevelsOK (Move cfg n d).1) ∧
    (∀ now d, LevelsOK d → LevelsOK (Start now d).1) ∧
    (∀ v d, v ≤ 9 → LevelsOK d → LevelsOK (FixFan v d)) ∧
    (∀ v d, v ≤ 9 → LevelsOK d → LevelsOK (FixPower v d)) ∧
    (∀ cm d, LevelsOK d → LevelsOK (FixControlMode cm d)) ∧
    (∀ n d, LevelsOK d → LevelsOK (MicroStep n d).1) := by
  refine ⟨?_, ?_, ?_, ?_, ?_, ?_, ?_, ?_, ?_, ?_, ?_, ?_, ?_, ?_, ?_, ?_⟩
  · intro cfg now l
    exact runBytes_levelsOK cfg now l initState (by simp [LevelsOK, initState])
  · exact runBytes_levelsOK
  · exact SetFan_levelsOK
  · exact SetPower_levelsOK
  · exact MoveFan_levelsOK
  · exact MovePower_levelsOK
  · exact MoveTimer_levelsOK
  · exact IncreaseTime_levelsOK
  · exact GoToMode_levelsOK
  · exact ClickButton_levelsOK
  · exact Move_levelsOK
  · exact Start_levelsOK
  · intro v d hv h
    exact FixFan_levelsOK v d hv h
  · intro v d hv h
    exact FixPower_levelsOK v d hv h
  · intro cm d h
    exact h
  · intro n d h
    exact h

/-- Witness for the amended C4 theorem: a concrete dispatched stream
(`I45`, `F9`, `f3`) keeps the levels in range, and a concrete in-range
`FixFan` preserves the invariant. -/
theorem C4_levels_invariant_witness :
    LevelsOK (runBytes cfg0 0 [73, 52, 53, 70, 57, 102, 51] initState).1 ∧
    LevelsOK (FixFan 9 initState) :=
  ⟨C4_levels_invariant.1 cfg0 0 [73, 52, 53, 70, 57, 102, 51],
   C4_levels_invariant.2.2.2.2.2.2.2.2.2.2.2.2.1 9 initState (by norm_num)
     (by simp [LevelsOK, initState])⟩

/-! ## Claim C5 — malformed digit arguments -/

/-- C5 counterexample: the `I` (initialize) handler given the malformed
digit byte `x` (120) returns nil — no rejected-input error — and still
changes the controller state, resetting the stored fan level from 3 to 0
(`b2i` maps the bad byte to 0). -/
theorem C5_counterexample :
    (InitCommand.run cfg0 0 [120, 53] fanThree).2 = none ∧
    (InitCommand.run cfg0 0 [120, 53] fanThree).1.1.fan = 0 ∧
    fanThree.fan = 3 := by
  norm_num [InitCommand, b2i, FixFan, FixPower, fanThree, initState]

/-- C5 (amended): for the `F` and `P` set commands, a digit-position byte
outside '1'..'9' (and not the nudge bytes '+'/'-') yields the
rejected-input error, leaves the state unchanged with no effect issued,
and the dispatcher loop continues with the rest of the stream exactly as
if the failed command had not appeared.  The `f`, `p`, `I` and `s`
handlers do not validate their digit: `b2i` maps a malformed byte to 0 and
they return nil (see the counterexample). -/
theorem C5_reject_and_continue (cfg : CalibrationConfig) (now : ℚ) (b : ℕ)
    (d : DState) (rest : List ℕ)
    (hb : b < 256) (hdig : ¬ (49 ≤ b ∧ b ≤ 57)) (hpm : b ≠ 43 ∧ b ≠ 45) :
    SetFanCommand.run cfg now [b] d =
      ((d, []), some ("invalid input: " ++ bytesStr [b])) ∧
    SetPowerCommand.run cfg now [b] d =
      ((d, []), some ("invalid input: " ++ bytesStr [b])) ∧
    runBytes cfg now (70 :: b :: rest) d = runBytes cfg now rest d ∧
    runBytes cfg now (80 :: b :: rest) d = runBytes cfg now rest d := by
  have hz : b2i b = 0 := by
    simp only [b2i]
    split
    · rfl
    · omega
  have hrunF : SetFanCommand.run cfg now [b] d =
      ((d, []), some ("invalid input: " ++ bytesStr [b])) := by
    simp [SetFanCommand, hpm.1, hpm.2, hz]
  have hrunP : SetPowerCommand.run cfg now [b] d =
      ((d, []), some ("invalid input: " ++ bytesStr [b])) := by
    simp [SetPowerCommand, hpm.1, hpm.2, hz]
  refine ⟨hrunF, hrunP, ?_, ?_⟩
  · have hf : findCmd 70 = some SetFanCommand := rfl
    conv_lhs => rw [runBytes]
    rw [hf]
    simp [SetFanCommand, hpm.1, hpm.2, hz]
  · have hf : findCmd 80 = some SetPowerCommand := rfl
    conv_lhs => rw [runBytes]
    rw [hf]
    simp [SetPowerCommand, hpm.1, hpm.2, hz]

/-- Witness for the amended C5 theorem at the malformed byte `x` (120)
followed by a further command: the `F` handler rejects it, state
unchanged, and the stream continues. -/
theorem C5_reject_and_continue_witness :
    SetFanCommand.run cfg0 0 [120] initState =
      ((initState, []), some ("invalid input: " ++ bytesStr [120])) ∧
    runBytes cfg0 0 (70 :: 120 :: [86]) initState =
      runBytes cfg0 0 [86] initState := by
  have h := C5_reject_and_continue cfg0 0 120 initState [86]
    (by norm_num) (by norm_num) (by norm_num)
  exact ⟨h.1, h.2.2.1⟩

/-! ## Claim C6 — click-button failure handling -/

/-- C6 counterexample: with the first servo angle-set failing, the click
command handler still returns nil — the hardware fault is logged and
swallowed, not propagated to the caller — and the click time is not
recorded (the state is untouched). -/
theorem C6_counterexample :
    (ClickCommandRun false true cfg0 7 initState).2 = none ∧
    (ClickCommandRun false true cfg0 7 initState).1.1 = initState := by
  simp [ClickCommandRun, ClickButton]

/-- C6 (amended): `ClickButton` has no error return.  On an angle-set
failure it aborts the click — skipping the remaining servo commands and
leaving `lastClick` unset — but the caller sees no error: the click
command handler reports nil whatever the servo does.  With no failure it
runs the full press/release sequence and records the click time. -/
theorem C6_clickButton (cfg : CalibrationConfig) (now : ℚ) (d : DState) :
    ClickButton cfg true true now d =
      ({ d with lastClick := now }, clickTrace cfg) ∧
    (∀ o2, ClickButton cfg false o2 now d =
      (d, [Effect.servoSetAngle cfg.ServoClickPosition])) ∧
    ClickButton cfg true false now d =
      (d, [Effect.servoSetAngle cfg.ServoClickPosition,
           Effect.sleep cfg.ServoPressDelay,
           Effect.servoSetAngle cfg.ServoBasePosition]) ∧
    (∀ o1 o2, (ClickCommandRun o1 o2 cfg now d).2 = none) := by
  refine ⟨by simp [ClickButton, clickTrace],
    fun o2 => by simp [ClickButton],
    by simp [ClickButton],
    fun o1 o2 => by simp [ClickCommandRun]⟩
